import Mathlib

/-!
Shallow embedding of the sound-survey Flask application (src/app.py).

The program keeps per-participant state in a cookie session (participant
id, version, the shuffled stimulus order, the current index, a run id)
and persists one `Response` row per accepted submission into a single
SQLite table.  Handlers are modelled as pure functions from the session,
the request data and the current table contents to the new table
contents, the new session and an outcome (redirect / render / error).
Randomness (random.shuffle) is a function parameter; wall-clock time and
uuid generation are string parameters.  The SQLite BOOLEAN column
`is_complete` may be NULL (old rows from the soft migration), so it is
modelled as `Option Bool`.  The autoincrement primary key plays no role
in any claim and is omitted; a table is a `List Response` in insertion
order.
-/

namespace SoundSurvey

/-- One record of the session's `stimuli_order` list, as built by `start`
(src/app.py lines 91-97): label, person, url and a fixed index. -/
structure Stimulus where
  stimulus_label : String
  person : String
  url : String
  index : Nat
deriving DecidableEq, Repr, Inhabited

/-- One row of the `response` table (src/app.py lines 35-51).  `run_id`
is nullable (String(36) with no default); `is_complete` is a nullable
BOOLEAN, NULL occurring in rows predating the soft migration. -/
structure Response where
  participant_id : String
  version : String
  stimulus_label : String
  person : String
  trial_index : Int
  start_time : String
  end_time : String
  q1 : Int
  q2 : Int
  q3 : Int
  q4 : Int
  q5 : Int
  run_id : Option String
  is_complete : Option Bool
deriving DecidableEq, Repr

/-- The cookie session of one participant.  Every key the experiment flow
uses is optional: a fresh session has none of them. -/
structure Session where
  participant_id : Option String
  version : Option String
  stimuli_order : Option (List Stimulus)
  current_index : Option Int
  run_id : Option String
deriving DecidableEq, Repr

/-- The POST form of the experiment page.  `trial_index = none` models a
missing or unparseable `trial_index` field (the code falls back to the
session index); q1..q5 are the parsed answers of an accepted submission;
`start_time` is passed through verbatim. -/
structure Form where
  trial_index : Option Int
  start_time : String
  q1 : Int
  q2 : Int
  q3 : Int
  q4 : Int
  q5 : Int
deriving DecidableEq, Repr

/-- One row of stimuli_list.csv after pandas parsing: the version column
plus the optional label / stimulus_label / person / url cells (`none` =
missing). -/
structure StimRow where
  version : String
  label : Option String
  stimulus_label : Option String
  person : Option String
  url : Option String
deriving DecidableEq, Repr

/-- Python's `a or b` for an optional string: `None` and `""` are falsy. -/
def pyOr (a : Option String) (b : String) : String :=
  match a with
  | some s => if s = "" then b else s
  | none => b

/-- Python's `str.lower()`: lower-case every character.  (Written on
the character list so that it evaluates by kernel reduction.) -/
def lowerStr (s : String) : String :=
  ⟨s.data.map Char.toLower⟩

/-- Python's `str.strip()`: drop whitespace at both ends. -/
def stripStr (s : String) : String :=
  ⟨((s.data.dropWhile Char.isWhitespace).reverse.dropWhile Char.isWhitespace).reverse⟩

/-- `(s or "").strip().lower()` as applied to version strings. -/
def trimLower (s : String) : String :=
  lowerStr (stripStr s)

/-- The record built for position `i` of the shuffled list (src/app.py
lines 93-97): the label falls back from `label` to `stimulus_label` to
`item{i+1}`, person and url default to `""`, and the index is fixed. -/
def buildRecord (i : Nat) (row : StimRow) : Stimulus :=
  { stimulus_label := pyOr row.label (pyOr row.stimulus_label ("item" ++ toString (i + 1)))
  , person := row.person.getD ""
  , url := row.url.getD ""
  , index := i }

/-- Enumerate the shuffled rows and build the session records. -/
def buildRecords (rows : List StimRow) : List Stimulus :=
  rows.enum.map (fun p => buildRecord p.1 p.2)

/-- Outcome of the `start` handler. -/
inductive StartOutcome where
  | badVersion
  | noStimuli
  | redirectExperiment
deriving DecidableEq, Repr

/-- HTTP status of each `start` outcome (400 / 500 / 302 redirect). -/
def StartOutcome.status : StartOutcome → Nat
  | .badVersion => 400
  | .noStimuli => 500
  | .redirectExperiment => 302

/-- Result of `start`: the freshly initialized session (`none` when the
handler errors out before touching the session) and the outcome. -/
structure StartResult where
  sess : Option Session
  out : StartOutcome
deriving DecidableEq, Repr

/-- The `start` handler (src/app.py lines 77-106).  `csv` is the parsed
stimuli_list.csv, `shuffle` stands for `random.shuffle`, `newPid` and
`newRid` for the two generated uuids. -/
def start (versionArg : String) (csv : List StimRow)
    (shuffle : List StimRow → List StimRow) (newPid newRid : String) : StartResult :=
  let version := trimLower versionArg
  if version = "cn" ∨ version = "jp" then
    let sub := csv.filter (fun row => lowerStr row.version = version)
    if sub.isEmpty then
      ⟨none, .noStimuli⟩
    else
      ⟨some { participant_id := some newPid
            , version := some version
            , stimuli_order := some (buildRecords (shuffle sub))
            , current_index := some 0
            , run_id := some newRid }, .redirectExperiment⟩
  else
    ⟨none, .badVersion⟩

/-- Outcome of a POST to `experiment`. -/
inductive ExpOutcome where
  | redirectIndex
  | redirectThankYou (version : String)
  | redirectExperiment
deriving DecidableEq, Repr

/-- Result of a POST to `experiment`: the new table, the new session and
the outcome. -/
structure ExpResult where
  db : List Response
  sess : Session
  out : ExpOutcome
deriving DecidableEq, Repr

/-- A POST request to the `experiment` handler (src/app.py lines
109-157): validate the session keys, guard the index, append one row,
advance the cursor, then redirect onwards.  `nowIso` stands for
`datetime.datetime.utcnow().isoformat()`. -/
def experimentPost (sess : Session) (form : Form) (nowIso : String)
    (db : List Response) : ExpResult :=
  match sess.stimuli_order, sess.current_index with
  | some stimuli_order, some idx =>
    let version := sess.version.getD "cn"
    if 0 ≤ idx ∧ idx < (stimuli_order.length : Int) then
      let form_trial_index := form.trial_index.getD idx
      let stim := stimuli_order.getD idx.toNat default
      let r : Response :=
        { participant_id := sess.participant_id.getD ""
        , version := version
        , stimulus_label := stim.stimulus_label
        , person := stim.person
        , trial_index := form_trial_index
        , start_time := form.start_time
        , end_time := nowIso
        , q1 := form.q1
        , q2 := form.q2
        , q3 := form.q3
        , q4 := form.q4
        , q5 := form.q5
        , run_id := sess.run_id
        , is_complete := some false }
      let sess' := { sess with current_index := some (idx + 1) }
      if (stimuli_order.length : Int) ≤ idx + 1 then
        ⟨db ++ [r], sess', .redirectThankYou version⟩
      else
        ⟨db ++ [r], sess', .redirectExperiment⟩
    else
      ⟨db, sess, .redirectThankYou version⟩
  | _, _ => ⟨db, sess, .redirectIndex⟩

/-- The completion UPDATE of `thank_you` (src/app.py line 191):
`UPDATE response SET is_complete = 1 WHERE run_id = :rid`. -/
def markComplete (rid : String) (db : List Response) : List Response :=
  db.map (fun r => if r.run_id = some rid then { r with is_complete := some true } else r)

/-- Result of `thank_you`: the new table and the version string the
thank-you template is rendered with. -/
structure ThankYouResult where
  db : List Response
  page : String
deriving DecidableEq, Repr

/-- The `thank_you` handler (src/app.py lines 183-196): normalize the
version, then best-effort mark the session's run complete.
`updateFails = true` models the UPDATE (or its commit) raising: the
transaction is rolled back and the table is left unchanged, but the
page is still rendered. -/
def thank_you (sess : Session) (versionArg : Option String) (updateFails : Bool)
    (db : List Response) : ThankYouResult :=
  let v := trimLower (pyOr versionArg (pyOr sess.version "cn"))
  let version := if v = "cn" then "cn" else "jp"
  match sess.run_id with
  | some rid =>
    if updateFails then ⟨db, version⟩
    else ⟨markComplete rid db, version⟩
  | none => ⟨db, version⟩

/-- The filter of the `total_partial` count and of `delete_partials`:
`(Response.is_complete == False) | (Response.is_complete == None)`. -/
def isIncomplete (r : Response) : Bool :=
  r.is_complete = some false || r.is_complete = none

/-- `total_completed` of the admin panel (src/app.py line 219): count of
rows with `is_complete == True`. -/
def total_completed (db : List Response) : Nat :=
  (db.filter (fun r => r.is_complete = some true)).length

/-- `total_partial` of the admin panel (src/app.py lines 220-222): count
of rows with `is_complete` false or NULL. -/
def total_incomplete (db : List Response) : Nat :=
  (db.filter isIncomplete).length

/-- One record of the exported CSV (src/app.py lines 237-250): the
selected columns of a row, run_id and is_complete excluded. -/
structure CsvRecord where
  participant_id : String
  version : String
  stimulus_label : String
  person : String
  trial_index : Int
  start_time : String
  end_time : String
  q1 : Int
  q2 : Int
  q3 : Int
  q4 : Int
  q5 : Int
deriving DecidableEq, Repr

/-- The projection of a table row onto the exported CSV columns. -/
def toCsvRecord (r : Response) : CsvRecord :=
  { participant_id := r.participant_id
  , version := r.version
  , stimulus_label := r.stimulus_label
  , person := r.person
  , trial_index := r.trial_index
  , start_time := r.start_time
  , end_time := r.end_time
  , q1 := r.q1
  , q2 := r.q2
  , q3 := r.q3
  , q4 := r.q4
  , q5 := r.q5 }

/-- The `export_csv` handler (src/app.py lines 227-257): `none` when not
logged in (redirect to the login page), otherwise the CSV records built
from the rows selected by `WHERE is_complete == True`, in table order. -/
def export_csv (adminLoggedIn : Bool) (db : List Response) : Option (List CsvRecord) :=
  if adminLoggedIn then
    some ((db.filter (fun r => r.is_complete = some true)).map toCsvRecord)
  else
    none

/-- Outcome of an admin destructive operation. -/
inductive AdminOutcome where
  | redirectAdmin
  | badRequest
  | redirectPanel
deriving DecidableEq, Repr

/-- HTTP status of each admin outcome (302 / 400 / 302). -/
def AdminOutcome.status : AdminOutcome → Nat
  | .redirectAdmin => 302
  | .badRequest => 400
  | .redirectPanel => 302

/-- Result of an admin destructive operation: the new table and the
outcome. -/
structure AdminResult where
  db : List Response
  out : AdminOutcome
deriving DecidableEq, Repr

/-- The `clear_db` handler (src/app.py lines 272-287): requires an admin
session, then requires the form field `really=yes` (else 400), then
deletes every row. -/
def clear_db (adminLoggedIn : Bool) (really : Option String)
    (db : List Response) : AdminResult :=
  if adminLoggedIn then
    if really = some "yes" then
      ⟨[], .redirectPanel⟩
    else
      ⟨db, .badRequest⟩
  else
    ⟨db, .redirectAdmin⟩

/-- The `delete_partials` handler (src/app.py lines 290-310): requires an
admin session, then deletes every row with `is_complete` false or NULL.
It reads no form field; `really` is the request's confirmation field,
which the handler ignores. -/
def delete_partials (adminLoggedIn : Bool) (_really : Option String)
    (db : List Response) : AdminResult :=
  if adminLoggedIn then
    ⟨db.filter (fun r => !(isIncomplete r)), .redirectPanel⟩
  else
    ⟨db, .redirectAdmin⟩

/-- Concrete stimulus used by the witnesses. -/
def sampleStim : Stimulus :=
  { stimulus_label := "s1", person := "A", url := "u1", index := 0 }

/-- Concrete mid-run session used by the witnesses. -/
def sampleSession : Session :=
  { participant_id := some "p1"
  , version := some "cn"
  , stimuli_order := some [sampleStim]
  , current_index := some 0
  , run_id := some "r1" }

/-- Concrete submission form used by the witnesses. -/
def sampleForm : Form :=
  { trial_index := some 0, start_time := "t0", q1 := 1, q2 := 2, q3 := 3, q4 := 4, q5 := 5 }

/-- Concrete incomplete table row used by witnesses and counterexamples. -/
def sampleIncomplete : Response :=
  { participant_id := "p2", version := "cn", stimulus_label := "s1", person := "A"
  , trial_index := 0, start_time := "t0", end_time := "t1"
  , q1 := 1, q2 := 2, q3 := 3, q4 := 4, q5 := 5
  , run_id := some "r2", is_complete := some false }

/-- Concrete completed table row used by the witnesses. -/
def sampleComplete : Response :=
  { participant_id := "p3", version := "jp", stimulus_label := "s2", person := "B"
  , trial_index := 1, start_time := "t2", end_time := "t3"
  , q1 := 5, q2 := 4, q3 := 3, q4 := 2, q5 := 1
  , run_id := some "r3", is_complete := some true }

/-- Concrete stimuli_list.csv row used by the witnesses. -/
def sampleStimRow : StimRow :=
  { version := "cn", label := some "s1", stimulus_label := none
  , person := some "A", url := some "u1" }

/-- C1: an accepted submission (session holds `stimuli_order` and an
in-range `current_index`) appends exactly one new `Response` row, and
that row carries the session's `run_id` and has `is_complete = False`. -/
theorem submission_appends_one_row (sess : Session) (order : List Stimulus) (idx : Int)
    (form : Form) (nowIso : String) (db : List Response)
    (ho : sess.stimuli_order = some order) (hi : sess.current_index = some idx)
    (h0 : 0 ≤ idx) (h1 : idx < (order.length : Int)) :
    ∃ r : Response, (experimentPost sess form nowIso db).db = db ++ [r]
      ∧ r.run_id = sess.run_id ∧ r.is_complete = some false := by
  simp only [experimentPost, ho, hi, if_pos (And.intro h0 h1)]
  split
  · exact ⟨_, rfl, rfl, rfl⟩
  · exact ⟨_, rfl, rfl, rfl⟩

/-- Witness for C1 at a concrete session, form and table. -/
theorem submission_appends_one_row_witness :
    ∃ r : Response, (experimentPost sampleSession sampleForm "t1" []).db = [] ++ [r]
      ∧ r.run_id = sampleSession.run_id ∧ r.is_complete = some false :=
  submission_appends_one_row sampleSession [sampleStim] 0 sampleForm "t1" []
    rfl rfl (by decide) (by decide)

/-- C2: an accepted submission advances the session cursor by exactly
one, and the only state it writes besides the appended table row is that
participant's own session, inside which only `current_index` changes
(the embedding has no global cursor: the handler's entire output state
is the table and this session). -/
theorem submission_advances_cursor_by_one (sess : Session) (order : List Stimulus) (idx : Int)
    (form : Form) (nowIso : String) (db : List Response)
    (ho : sess.stimuli_order = some order) (hi : sess.current_index = some idx)
    (h0 : 0 ≤ idx) (h1 : idx < (order.length : Int)) :
    (experimentPost sess form nowIso db).sess.current_index = some (idx + 1)
    ∧ (experimentPost sess form nowIso db).sess = { sess with current_index := some (idx + 1) } := by
  simp only [experimentPost, ho, hi, if_pos (And.intro h0 h1)]
  split
  · exact ⟨rfl, rfl⟩
  · exact ⟨rfl, rfl⟩

/-- Witness for C2 at a concrete session, form and table. -/
theorem submission_advances_cursor_by_one_witness :
    (experimentPost sampleSession sampleForm "t1" []).sess.current_index = some (0 + 1)
    ∧ (experimentPost sampleSession sampleForm "t1" []).sess =
        { sampleSession with current_index := some (0 + 1) } :=
  submission_advances_cursor_by_one sampleSession [sampleStim] 0 sampleForm "t1" []
    rfl rfl (by decide) (by decide)

/-- C10: a POST whose session `current_index` is outside
`[0, length stimuli_order)` redirects to the thank-you page, leaves the
table unchanged and never indexes the stimulus list. -/
theorem out_of_range_post_is_noop (sess : Session) (order : List Stimulus) (idx : Int)
    (form : Form) (nowIso : String) (db : List Response)
    (ho : sess.stimuli_order = some order) (hi : sess.current_index = some idx)
    (hbad : ¬ (0 ≤ idx ∧ idx < (order.length : Int))) :
    (experimentPost sess form nowIso db).db = db
    ∧ (experimentPost sess form nowIso db).out =
        ExpOutcome.redirectThankYou (sess.version.getD "cn") := by
  simp only [experimentPost, ho, hi, if_neg hbad]
  exact ⟨trivial, trivial⟩

/-- Witness for C10 at a concrete out-of-range session. -/
theorem out_of_range_post_is_noop_witness :
    (experimentPost { sampleSession with current_index := some 5 } sampleForm "t1"
        [sampleIncomplete]).db = [sampleIncomplete]
    ∧ (experimentPost { sampleSession with current_index := some 5 } sampleForm "t1"
        [sampleIncomplete]).out =
        ExpOutcome.redirectThankYou (({ sampleSession with current_index := some 5 } : Session).version.getD "cn") :=
  out_of_range_post_is_noop { sampleSession with current_index := some 5 } [sampleStim] 5
    sampleForm "t1" [sampleIncomplete] rfl rfl (by decide)

/-- C3: the completion UPDATE of the thank-you handler sets
`is_complete = True` on exactly the rows whose `run_id` matches (the
table keeps its length and row `i` of the updated table is row `i` of
the old one, completed iff its `run_id` matches), and no other
operation ever produces a row with `is_complete = True` that was not
already in the table: a submission only appends an incomplete row, and
the two destructive admin operations only delete rows.  `start`,
`admin_panel` and the exports do not touch the table at all (they are
functions of it, not on it). -/
theorem completion_only_via_thank_you (rid : String) (db : List Response) :
    ((markComplete rid db).length = db.length
      ∧ ∀ i : Nat, (markComplete rid db)[i]? =
          (db[i]?).map
            (fun r => if r.run_id = some rid then { r with is_complete := some true } else r))
    ∧ (∀ (sess : Session) (form : Form) (nowIso : String) (r : Response),
        r ∈ (experimentPost sess form nowIso db).db → r.is_complete = some true → r ∈ db)
    ∧ (∀ (loggedIn : Bool) (really : Option String) (r : Response),
        r ∈ (clear_db loggedIn really db).db → r ∈ db)
    ∧ (∀ (loggedIn : Bool) (really : Option String) (r : Response),
        r ∈ (delete_partials loggedIn really db).db → r ∈ db) := by
  refine ⟨⟨by simp [markComplete], ?_⟩, ?_, ?_, ?_⟩
  · intro i
    simp [markComplete]
  · intro sess form nowIso r hr hc
    rcases ho : sess.stimuli_order with _ | order <;>
      rcases hi : sess.current_index with _ | idx <;>
      simp only [experimentPost, ho, hi] at hr
    · exact hr
    · exact hr
    · exact hr
    · split at hr
      · split at hr <;>
        · rcases List.mem_append.mp hr with h | h
          · exact h
          · rw [List.mem_singleton.mp h] at hc
            exact absurd hc (by simp)
      · exact hr
  · intro loggedIn really r hr
    unfold clear_db at hr
    split at hr
    · split at hr
      · exact absurd hr (List.not_mem_nil r)
      · exact hr
    · exact hr
  · intro loggedIn really r hr
    unfold delete_partials at hr
    split at hr
    · exact List.mem_of_mem_filter hr
    · exact hr

/-- Witness for C3: the no-new-completion property of a submission,
exercised on a table that already holds a completed row. -/
theorem completion_only_via_thank_you_witness :
    sampleComplete ∈ [sampleComplete] :=
  (completion_only_via_thank_you "r1" [sampleComplete]).2.1
    sampleSession sampleForm "t1" sampleComplete (by decide) (by decide)

/-- Counterexample to C4 as stated: with an admin session and no
confirmation flag in the request, `delete_partials` does not fail with
400 and does not leave the table unchanged — it deletes the incomplete
row anyway. -/
theorem delete_partials_needs_no_confirmation :
    ¬ ((delete_partials true none [sampleIncomplete]).out = AdminOutcome.badRequest
       ∧ (delete_partials true none [sampleIncomplete]).db = [sampleIncomplete]) := by
  decide

/-- C4 (amended): `clear_db` requires the confirmation flag
`really=yes` — without it it fails with 400 and deletes nothing, with
it it deletes every row; `delete_partials`, however, deletes every row
with `is_complete` false or NULL regardless of any confirmation flag. -/
theorem destructive_ops_confirmation (db : List Response) (really : Option String)
    (hno : really ≠ some "yes") :
    (clear_db true really db = ⟨db, AdminOutcome.badRequest⟩
      ∧ AdminOutcome.badRequest.status = 400)
    ∧ clear_db true (some "yes") db = ⟨[], AdminOutcome.redirectPanel⟩
    ∧ ∀ anyFlag : Option String,
        delete_partials true anyFlag db =
          ⟨db.filter (fun r => !(isIncomplete r)), AdminOutcome.redirectPanel⟩ := by
  refine ⟨⟨?_, rfl⟩, rfl, fun _ => rfl⟩
  simp [clear_db, hno]

/-- Witness for the amended C4 at a concrete table and flag. -/
theorem destructive_ops_confirmation_witness :
    (clear_db true none [sampleIncomplete] = ⟨[sampleIncomplete], AdminOutcome.badRequest⟩
      ∧ AdminOutcome.badRequest.status = 400)
    ∧ clear_db true (some "yes") [sampleIncomplete] = ⟨[], AdminOutcome.redirectPanel⟩
    ∧ ∀ anyFlag : Option String,
        delete_partials true anyFlag [sampleIncomplete] =
          ⟨[sampleIncomplete].filter (fun r => !(isIncomplete r)), AdminOutcome.redirectPanel⟩ :=
  destructive_ops_confirmation [sampleIncomplete] none (by decide)

/-- Counterexample to C5 as stated: a table holding one incomplete row
exports to a CSV in which that row appears as no record. -/
theorem export_csv_omits_incomplete_rows :
    sampleIncomplete ∈ [sampleIncomplete]
    ∧ toCsvRecord sampleIncomplete ∉ (export_csv true [sampleIncomplete]).getD [] := by
  decide

/-- C5 (amended): the admin CSV export dumps the completed rows of the
table: every row with `is_complete = True` appears as one record, and
every exported record comes from such a row; rows with `is_complete`
false or NULL are omitted. -/
theorem export_csv_dumps_completed_rows (db : List Response) (r : Response)
    (hr : r ∈ db) (hc : r.is_complete = some true) :
    toCsvRecord r ∈ (export_csv true db).getD []
    ∧ ∀ rec ∈ (export_csv true db).getD [],
        ∃ r0 ∈ db, r0.is_complete = some true ∧ rec = toCsvRecord r0 := by
  constructor
  · simp only [export_csv, if_pos trivial, Option.getD_some]
    exact List.mem_map_of_mem toCsvRecord (List.mem_filter.mpr ⟨hr, by simp [hc]⟩)
  · intro rec hrec
    simp only [export_csv, if_pos trivial, Option.getD_some] at hrec
    rcases List.mem_map.mp hrec with ⟨r0, hr0, hrec0⟩
    rcases List.mem_filter.mp hr0 with ⟨hmem, hcomp⟩
    exact ⟨r0, hmem, by simpa using hcomp, hrec0.symm⟩

/-- Witness for the amended C5 at a concrete completed row. -/
theorem export_csv_dumps_completed_rows_witness :
    toCsvRecord sampleComplete ∈ (export_csv true [sampleIncomplete, sampleComplete]).getD []
    ∧ ∀ rec ∈ (export_csv true [sampleIncomplete, sampleComplete]).getD [],
        ∃ r0 ∈ [sampleIncomplete, sampleComplete],
          r0.is_complete = some true ∧ rec = toCsvRecord r0 :=
  export_csv_dumps_completed_rows [sampleIncomplete, sampleComplete] sampleComplete
    (by decide) (by decide)

/-- C6: the served order is fixed at session start: whenever `start`
initializes a session, the stored `stimuli_order` is the version-filtered
stimulus list passed through the one random shuffle (a permutation of
the filtered list), and a submission never modifies `stimuli_order`,
`run_id`, `participant_id` or `version` — `current_index` is the only
session key the experiment handler writes. -/
theorem order_fixed_at_start (versionArg : String) (csv : List StimRow)
    (shuffle : List StimRow → List StimRow) (newPid newRid : String) (s : Session)
    (hperm : ∀ l : List StimRow, List.Perm (shuffle l) l)
    (hs : (start versionArg csv shuffle newPid newRid).sess = some s) :
    (s.stimuli_order =
        some (buildRecords
          (shuffle (csv.filter (fun row => lowerStr row.version = trimLower versionArg))))
      ∧ List.Perm
          (shuffle (csv.filter (fun row => lowerStr row.version = trimLower versionArg)))
          (csv.filter (fun row => lowerStr row.version = trimLower versionArg)))
    ∧ (∀ (sess : Session) (form : Form) (nowIso : String) (db : List Response),
        (experimentPost sess form nowIso db).sess.stimuli_order = sess.stimuli_order
        ∧ (experimentPost sess form nowIso db).sess.run_id = sess.run_id
        ∧ (experimentPost sess form nowIso db).sess.participant_id = sess.participant_id
        ∧ (experimentPost sess form nowIso db).sess.version = sess.version) := by
  constructor
  · simp only [start] at hs
    split at hs
    · split at hs
      · simp at hs
      · simp only [Option.some.injEq] at hs
        subst hs
        exact ⟨rfl, hperm _⟩
    · simp at hs
  · intro sess form nowIso db
    rcases ho : sess.stimuli_order with _ | order
    · simp [experimentPost, ho]
    · rcases hi : sess.current_index with _ | idx
      · simp [experimentPost, ho, hi]
      · simp only [experimentPost, ho, hi]
        split
        · split <;> simp [ho]
        · simp [ho]

/-- Witness for C6 with the identity as the (trivially permuting)
shuffle, at a concrete version and stimulus file. -/
theorem order_fixed_at_start_witness :
    (({ participant_id := some "p1", version := some "cn"
      , stimuli_order := some (buildRecords (id [sampleStimRow]))
      , current_index := some 0, run_id := some "r1" } : Session).stimuli_order =
        some (buildRecords
          (id ([sampleStimRow].filter (fun row => lowerStr row.version = trimLower "cn"))))
      ∧ List.Perm
          (id ([sampleStimRow].filter (fun row => lowerStr row.version = trimLower "cn")))
          ([sampleStimRow].filter (fun row => lowerStr row.version = trimLower "cn")))
    ∧ (∀ (sess : Session) (form : Form) (nowIso : String) (db : List Response),
        (experimentPost sess form nowIso db).sess.stimuli_order = sess.stimuli_order
        ∧ (experimentPost sess form nowIso db).sess.run_id = sess.run_id
        ∧ (experimentPost sess form nowIso db).sess.participant_id = sess.participant_id
        ∧ (experimentPost sess form nowIso db).sess.version = sess.version) :=
  order_fixed_at_start "cn" [sampleStimRow] id "p1" "r1"
    { participant_id := some "p1", version := some "cn"
    , stimuli_order := some (buildRecords (id [sampleStimRow]))
    , current_index := some 0, run_id := some "r1" }
    (fun l => List.Perm.refl l) (by decide)

/-- C7: the thank-you handler is best-effort: when the completion
UPDATE (or its commit) raises, the transaction is rolled back — the
table is unchanged — and the thank-you page is still rendered with the
normalized version. -/
theorem thank_you_swallows_update_failure (sess : Session) (versionArg : Option String)
    (db : List Response) :
    (thank_you sess versionArg true db).db = db
    ∧ (thank_you sess versionArg true db).page =
        (if trimLower (pyOr versionArg (pyOr sess.version "cn")) = "cn" then "cn" else "jp") := by
  unfold thank_you
  rcases h : sess.run_id with _ | rid <;> simp [h]

/-- C8: `start` rejects a version whose trimmed lower-cased form is not
cn or jp with a 400 and no session, and a valid version with an empty
filtered stimulus list with a 500 and no session. -/
theorem start_rejects_invalid_input (versionArg : String) (csv : List StimRow)
    (shuffle : List StimRow → List StimRow) (newPid newRid : String) :
    (¬ (trimLower versionArg = "cn" ∨ trimLower versionArg = "jp") →
      start versionArg csv shuffle newPid newRid = ⟨none, StartOutcome.badVersion⟩
      ∧ StartOutcome.badVersion.status = 400)
    ∧ ((trimLower versionArg = "cn" ∨ trimLower versionArg = "jp") →
      csv.filter (fun row => lowerStr row.version = trimLower versionArg) = [] →
      start versionArg csv shuffle newPid newRid = ⟨none, StartOutcome.noStimuli⟩
      ∧ StartOutcome.noStimuli.status = 500) := by
  constructor
  · intro hbad
    refine ⟨?_, rfl⟩
    simp only [start]
    rw [if_neg hbad]
  · intro hok hemp
    refine ⟨?_, rfl⟩
    simp only [start]
    rw [if_pos hok, hemp]
    simp

/-- Witness for C8: an invalid version and a valid version with an
empty stimulus file, both at concrete inputs. -/
theorem start_rejects_invalid_input_witness :
    (start "xx" [sampleStimRow] id "p1" "r1" = ⟨none, StartOutcome.badVersion⟩
      ∧ StartOutcome.badVersion.status = 400)
    ∧ (start "jp" [sampleStimRow] id "p1" "r1" = ⟨none, StartOutcome.noStimuli⟩
      ∧ StartOutcome.noStimuli.status = 500) :=
  ⟨(start_rejects_invalid_input "xx" [sampleStimRow] id "p1" "r1").1 (by decide),
   (start_rejects_invalid_input "jp" [sampleStimRow] id "p1" "r1").2 (by decide) (by decide)⟩

/-- C9: the two admin-panel counts partition the table: rows with
`is_complete = True` are counted by `total_completed`, rows with
`is_complete` false or NULL by `total_partial`, and the two counts sum
to the number of rows. -/
theorem admin_counts_partition (db : List Response) :
    total_completed db + total_incomplete db = db.length := by
  induction db with
  | nil => rfl
  | cons r t ih =>
    rcases h : r.is_complete with _ | b
    · simp [total_completed, total_incomplete, isIncomplete, List.filter_cons, h] at ih ⊢
      omega
    · cases b <;>
        simp [total_completed, total_incomplete, isIncomplete, List.filter_cons, h] at ih ⊢ <;>
        omega

end SoundSurvey
